import Mathlib

/-!
Shallow embedding of the menu-driven chat bot (src/bot.py) and its companion
persistence module (src/database.py).

Modelling conventions:
* The chat SDK transport (Telegram updates, reply/edit calls) is abstracted:
  sending a message is modelled as emitting a `Reply` value; the transport is
  assumed to succeed.  Python exceptions that the embedded code itself can
  raise (KeyError from dict indexing / str.format) are modelled with `Except`.
* The MySQL store is a list of rows.  Whether a database call fails is an
  oracle boolean `fail` threaded through the operations; a failing call
  raises `mysql.connector.Error`, modelled as `DBErr`.
* `context.user_data` is the per-user session dictionary; the keys the code
  uses are `state_name`, `project_type`, `project_details`, `username`,
  `parent_state`, `last_choice`, each modelled as an `Option String` field.
* The menu mapping CONVO (loaded from conversation.json, which is not part
  of the two source files) is an association list from node name to `Node`.
-/

namespace FirmCrypto

/-- One piece of a Python format string: literal text or a `\x7bname\x7d` field. -/
inductive TmplPart where
  | lit (s : String)
  | field (f : String)
deriving DecidableEq, Repr

/-- A menu node as stored in CONVO: `message` template, button `options`,
`next` mapping from button label to node name, optional `description`. -/
structure Node where
  message : List TmplPart := []
  options : List String := []
  next : List (String × String) := []
  description : Option String := none
deriving DecidableEq, Repr, Inhabited

/-- The loaded menu mapping (Python dict node-name to node). -/
abbrev Convo := List (String × Node)

/-- Python dict lookup `d.get(k)` on a string-keyed association list. -/
def alookup {α : Type} (n : String) : List (String × α) → Option α
  | [] => none
  | (k, v) :: rest => if n = k then some v else alookup n rest

/-- The keys of a string-keyed association list. -/
def keys {α : Type} (l : List (String × α)) : List String := l.map Prod.fst

/-- The per-user session dictionary `context.user_data`. -/
structure UserData where
  state_name : Option String := none
  project_type : Option String := none
  project_details : Option String := none
  username : Option String := none
  parent_state : Option String := none
  last_choice : Option String := none
deriving DecidableEq, Repr

/-- A fresh (or cleared) session dictionary. -/
def UserData.empty : UserData := {}

/-- Python exceptions the embedded bot code can raise itself. -/
inductive PyErr where
  | keyError
deriving DecidableEq, Repr

/-- mysql.connector errors raised by a failing database call. -/
inductive DBErr where
  | insertError
  | fetchError
deriving DecidableEq, Repr

/-- A row of the `requests` table as created by bot.py init_db
(id, user_id, username, project_type, details, status). -/
structure Row where
  id : Nat
  user_id : Nat
  username : String
  project_type : String
  details : String
  status : String
deriving DecidableEq, Repr

/-- AUTO_INCREMENT id for the next inserted row. -/
def nextId (db : List Row) : Nat := db.foldl (fun a r => max a r.id) 0 + 1

/-- The row built by the INSERT of bot.py save_request: the status column is
absent from the column list, so the schema default `Pending` applies. -/
def mkRow (db : List Row) (uid : Nat) (un pt det : String) : Row :=
  ⟨nextId db, uid, un, pt, det, "Pending"⟩

/-- The `cur.execute(INSERT ...)` + `conn.commit()` step of save_request:
raises `DBErr` on a failing database, otherwise appends the row. -/
def insert_exec (db : List Row) (fail : Bool) (r : Row) : Except DBErr (List Row) :=
  if fail then .error .insertError else .ok (db ++ [r])

/-- Embeds bot.py `save_request`: runs the INSERT inside try/except Error;
on error it logs, rolls back and returns normally, leaving the store as it was. -/
def save_request (db : List Row) (fail : Bool) (uid : Nat) (un pt det : String) :
    List Row :=
  match insert_exec db fail (mkRow db uid un pt det) with
  | .ok db2 => db2
  | .error _ => db

/-- The `cur.execute(SELECT id, project_type, status ... WHERE user_id = %s)`
step of get_user_requests.  The query has no ORDER BY clause, so the rows come
back in table order. -/
def select_exec (db : List Row) (fail : Bool) (uid : Nat) :
    Except DBErr (List (Nat × String × String)) :=
  if fail then .error .fetchError
  else .ok ((db.filter (fun r => r.user_id == uid)).map
    (fun r => (r.id, r.project_type, r.status)))

/-- Embeds bot.py `get_user_requests`: try/except Error returning `[]` on a
database failure. -/
def get_user_requests (db : List Row) (fail : Bool) (uid : Nat) :
    List (Nat × String × String) :=
  match select_exec db fail uid with
  | .ok rows => rows
  | .error _ => []

/-- Fields referenced by a template. -/
def tmplFields : List TmplPart → List String
  | [] => []
  | .lit _ :: rest => tmplFields rest
  | .field f :: rest => f :: tmplFields rest

/-- Python `str.format(**env)`: substitutes each field from the keyword
environment, raising KeyError when a referenced field is not supplied. -/
def renderTemplate : List TmplPart → (String → Option String) → Except PyErr String
  | [], _ => .ok ""
  | .lit s :: rest, env => (renderTemplate rest env).map (fun t => s ++ t)
  | .field f :: rest, env =>
    match env f with
    | some v => (renderTemplate rest env).map (fun t => v ++ t)
    | none => .error .keyError

/-- The raw (unformatted) text of a template, as stored in the JSON file. -/
def rawTemplate : List TmplPart → String
  | [] => ""
  | .lit s :: rest => s ++ rawTemplate rest
  | .field f :: rest => "\x7b" ++ f ++ "\x7d" ++ rawTemplate rest

/-- The keyword environment bot.py goto_state passes to `text.format` at the
request_summary node: `project_type` defaults to `Unknown`, the two other
fields default to the empty string. -/
def summaryEnv (ud : UserData) (f : String) : Option String :=
  if f = "project_type" then some (ud.project_type.getD "Unknown")
  else if f = "project_details" then some (ud.project_details.getD "")
  else if f = "username" then some (ud.username.getD "")
  else none

/-- The field names supplied to `format` at the request_summary node. -/
def allowedField (f : String) : Bool :=
  f = "project_type" || f = "project_details" || f = "username"

/-- True when the request_summary template (if any) references only the three
supplied field names, so that formatting it cannot raise KeyError. -/
def summaryTemplateOK (convo : Convo) : Bool :=
  match alookup "request_summary" convo with
  | some st => (tmplFields st.message).all allowedField
  | none => true

/-- An outgoing chat message: text plus inline keyboard button labels. -/
structure Reply where
  text : String
  buttons : List String
deriving DecidableEq, Repr

/-- The warning bot.py goto_state sends before falling back to `start`. -/
def warnReply : Reply := ⟨"⚠️ Unknown state. Returning to main menu.", []⟩

/-- The body of goto_state after the state has been resolved: formats the
message (request_summary only), appends the request list (my_requests only),
and picks the description text and fixed buttons when the node has a
description.  Returns the emitted replies and the returned state name. -/
def renderOut (db : List Row) (fail : Bool) (ud : UserData) (uid : Nat)
    (warned : List Reply) (sn : String) (st : Node) :
    Except PyErr (List Reply × String) :=
  match (if sn = "request_summary" then renderTemplate st.message (summaryEnv ud)
         else .ok (rawTemplate st.message)) with
  | .error e => .error e
  | .ok text =>
    let text :=
      if sn = "my_requests" then
        let reqs := get_user_requests db fail uid
        if reqs.isEmpty then text ++ "\n\n(No requests yet.)"
        else text ++ "\n\n" ++ String.intercalate "\n"
          (reqs.map (fun r => "#" ++ toString r.1 ++ " | " ++ r.2.1 ++ " | " ++ r.2.2))
      else text
    match st.description with
    | some d => .ok (warned ++ [⟨d, ["Request Service", "Back"]⟩], sn)
    | none => .ok (warned ++ [⟨text, st.options⟩], sn)

/-- Resolved-state step of goto_state: `context.user_data["state_name"]` is
assigned before any rendering can raise. -/
def renderState (db : List Row) (fail : Bool) (ud : UserData) (uid : Nat)
    (warned : List Reply) (sn : String) (st : Node) :
    UserData × Except PyErr (List Reply × String) :=
  ({ ud with state_name := some sn },
   renderOut db fail { ud with state_name := some sn } uid warned sn st)

/-- Embeds bot.py `goto_state`: unknown node name warns the user and falls
back to `start`; `CONVO[state_name]` on a menu without a `start` key raises
KeyError before the session is touched. -/
def goto_state (convo : Convo) (db : List Row) (fail : Bool) (ud : UserData)
    (uid : Nat) (state_name : String) :
    UserData × Except PyErr (List Reply × String) :=
  match alookup state_name convo with
  | some st => renderState db fail ud uid [] state_name st
  | none =>
    match alookup "start" convo with
    | some st => renderState db fail ud uid [warnReply] "start" st
    | none => (ud, .error .keyError)

instance {ε α : Type} [DecidableEq ε] [DecidableEq α] : DecidableEq (Except ε α) :=
  fun x y =>
  match x, y with
  | .ok a, .ok b =>
    if h : a = b then isTrue (h ▸ rfl) else isFalse (fun hc => by cases hc; exact h rfl)
  | .ok _, .error _ => isFalse (fun hc => by cases hc)
  | .error _, .ok _ => isFalse (fun hc => by cases hc)
  | .error e, .error f =>
    if h : e = f then isTrue (h ▸ rfl) else isFalse (fun hc => by cases hc; exact h rfl)

/-- Result of a callback step: session, store, and emitted replies or error. -/
structure CbResult where
  ud : UserData
  db : List Row
  out : Except PyErr (List Reply × String)
deriving DecidableEq, Repr

/-- Embeds bot.py `handle_callback`: records `last_choice`, handles the four
hardcoded payloads before consulting the current node's next-mapping, and
re-renders the current node when the payload has no mapping entry. -/
def handle_callback (convo : Convo) (db : List Row) (fail : Bool) (ud : UserData)
    (uid : Nat) (choice : String) : CbResult :=
  let ud := { ud with last_choice := some choice }
  let state_name := ud.state_name.getD "start"
  let state := (alookup state_name convo).getD default
  if choice = "Confirm Transaction" then
    let db2 := save_request db fail uid (ud.username.getD "")
      (ud.project_type.getD "Unknown") (ud.project_details.getD "")
    let g := goto_state convo db2 fail ud uid "request_confirmation"
    ⟨g.1, db2, g.2⟩
  else if choice = "Cancel Request" then
    let g := goto_state convo db fail UserData.empty uid "start"
    ⟨g.1, db, g.2⟩
  else if choice = "Request Service" then
    let g := goto_state convo db fail ud uid "request_details"
    ⟨g.1, db, g.2⟩
  else if choice = "Back" then
    let g := goto_state convo db fail ud uid (ud.parent_state.getD "start")
    ⟨g.1, db, g.2⟩
  else
    match alookup choice state.next with
    | some next_state =>
      let ud :=
        if ((alookup next_state convo).getD default).description.isSome then
          { ud with parent_state := some state_name, project_type := some choice }
        else ud
      let g := goto_state convo db fail ud uid next_state
      ⟨g.1, db, g.2⟩
    | none =>
      let g := goto_state convo db fail ud uid state_name
      ⟨g.1, db, g.2⟩

/-- Embeds the `/start` command handler: clears the session and renders start. -/
def start_cmd (convo : Convo) (db : List Row) (fail : Bool) (uid : Nat) :
    UserData × Except PyErr (List Reply × String) :=
  goto_state convo db fail UserData.empty uid "start"

/-- Python `str.strip()`: removes leading and trailing whitespace. -/
def pyStrip (s : String) : String :=
  ⟨((s.data.dropWhile Char.isWhitespace).reverse.dropWhile Char.isWhitespace).reverse⟩

/-- Python `str.lstrip("@")`: removes every leading `@` character. -/
def pyLstripAts (s : String) : String :=
  ⟨s.data.dropWhile (fun c => c = '@')⟩

/-- Embeds bot.py `handle_text`: the two free-text collection nodes store the
stripped text and advance; any other node reprompts for the menu buttons.
The returned state name is `none` on the reprompt path (Python returns None). -/
def handle_text (convo : Convo) (db : List Row) (fail : Bool) (ud : UserData)
    (uid : Nat) (text : String) :
    UserData × Except PyErr (List Reply × Option String) :=
  let state_name := ud.state_name.getD "start"
  if state_name = "request_details" then
    let ud := { ud with project_details := some (pyStrip text) }
    let g := goto_state convo db fail ud uid "request_username"
    (g.1, g.2.map (fun p => (p.1, some p.2)))
  else if state_name = "request_username" then
    let ud := { ud with username := some (pyLstripAts (pyStrip text)) }
    let g := goto_state convo db fail ud uid "request_summary"
    (g.1, g.2.map (fun p => (p.1, some p.2)))
  else
    (ud, .ok ([⟨"⚠️ Please use the menu buttons.", []⟩], none))

/-- A row of the `requests` table as created by database.py init_db
(id, user_id, username, category, service, details, status, created_at).
`created_at` is an insertion-time ordinal standing for the TIMESTAMP column. -/
structure Row2 where
  id : Nat
  user_id : Nat
  username : String
  category : String
  service : String
  details : String
  status : String
  created_at : Nat
deriving DecidableEq, Repr

/-- AUTO_INCREMENT id for the next inserted database.py row. -/
def nextId2 (db : List Row2) : Nat := db.foldl (fun a r => max a r.id) 0 + 1

/-- Embeds database.py `add_request`: the INSERT leaves status at its schema
default `pending`; the function body is try/finally with no except clause, so
a database error propagates to the caller (the finally only closes the
connection, leaving the store unchanged). -/
def add_request (db : List Row2) (fail : Bool) (uid : Nat)
    (un cat srv det : String) (now : Nat) : Except DBErr (List Row2) :=
  if fail then .error .insertError
  else .ok (db ++ [⟨nextId2 db, uid, un, cat, srv, det, "pending", now⟩])

/-- The projection of a row selected by database.py get_requests_by_user. -/
structure ReqView where
  id : Nat
  category : String
  service : String
  details : String
  status : String
  created_at : Nat
deriving DecidableEq, Repr

/-- SELECT column list of get_requests_by_user. -/
def toView (r : Row2) : ReqView :=
  ⟨r.id, r.category, r.service, r.details, r.status, r.created_at⟩

/-- Insert a row into a list kept sorted by created_at descending. -/
def insertDesc (r : ReqView) : List ReqView → List ReqView
  | [] => [r]
  | x :: xs => if x.created_at ≤ r.created_at then r :: x :: xs else x :: insertDesc r xs

/-- ORDER BY created_at DESC. -/
def orderByCreatedDesc (l : List ReqView) : List ReqView := l.foldr insertDesc []

/-- Decides that a result list is ordered newest-first by created_at. -/
def createdDescSorted : List ReqView → Bool
  | [] => true
  | [_] => true
  | a :: b :: rest => decide (b.created_at ≤ a.created_at) && createdDescSorted (b :: rest)

/-- Decides that a bot.py get_user_requests result is ordered newest-first,
judged by the AUTO_INCREMENT id (the schema has no timestamp column, so a
larger id is the newer row). -/
def idsNewestFirst : List (Nat × String × String) → Bool
  | [] => true
  | [_] => true
  | a :: b :: rest => decide (b.1 ≤ a.1) && idsNewestFirst (b :: rest)

/-- Embeds database.py `get_requests_by_user`: WHERE user_id = %s with
ORDER BY created_at DESC; try/finally with no except clause, so a database
error propagates to the caller. -/
def get_requests_by_user (db : List Row2) (fail : Bool) (uid : Nat) :
    Except DBErr (List ReqView) :=
  if fail then .error .fetchError
  else .ok (orderByCreatedDesc ((db.filter (fun r => r.user_id == uid)).map toView))

/-- Schema-level state of the MySQL server: existing databases and the tables
of the bot's database. -/
structure SchemaState where
  databases : List String := []
  tables : List String := []
deriving DecidableEq, Repr

/-- CREATE DATABASE IF NOT EXISTS. -/
def createDatabaseIfNotExists (s : SchemaState) (name : String) : SchemaState :=
  if name ∈ s.databases then s else { s with databases := s.databases ++ [name] }

/-- CREATE TABLE IF NOT EXISTS. -/
def createTableIfNotExists (s : SchemaState) (name : String) : SchemaState :=
  if name ∈ s.tables then s else { s with tables := s.tables ++ [name] }

/-- Schema effect of bot.py `init_db`: CREATE DATABASE IF NOT EXISTS followed
by CREATE TABLE IF NOT EXISTS requests.  When every connection attempt fails
the retry loop exhausts, the failure is logged, and the schema is untouched;
in either case the function returns normally. -/
def bot_init_db (s : SchemaState) (fail : Bool) (db_name : String) : SchemaState :=
  if fail then s
  else createTableIfNotExists (createDatabaseIfNotExists s db_name) "requests"

/-- Schema effect of database.py `init_db`: CREATE TABLE IF NOT EXISTS for
the requests and submissions tables. -/
def db_init_db (s : SchemaState) : SchemaState :=
  createTableIfNotExists (createTableIfNotExists s "requests") "submissions"

/-- Startup environment of bot.py main: the bot token and the database
credential fields resolved by get_db_creds. -/
structure EnvConfig where
  token : Option String := none
  host : Option String := none
  user : Option String := none
  password : Option String := none
  database : Option String := none
deriving DecidableEq, Repr

/-- Ways bot.py startup can terminate instead of serving. -/
inductive StartupErr where
  | systemExit (code : Nat)
  | valueError
deriving DecidableEq, Repr

/-- Marker that startup reached the polling loop and serves chat events. -/
inductive Phase where
  | serving
deriving DecidableEq, Repr

/-- Control-flow embedding of bot.py `init_db` at startup: a missing host is
logged and the function returns; failing connections exhaust the retry loop,
are logged, and the function returns; only ensure_pool's ValueError (raised
inside the try block but not a mysql.connector.Error) escapes. -/
def init_db_run (env : EnvConfig) (connectFail : Bool) : Except StartupErr Unit :=
  if env.host.isNone then .ok ()
  else if connectFail then .ok ()
  else if env.user.isNone || env.password.isNone then .error .valueError
  else .ok ()

/-- Embeds bot.py `main` up to the polling loop: a missing token raises
SystemExit(1); otherwise init_db runs and, when it returns, the process
starts serving chat events. -/
def main_startup (env : EnvConfig) (connectFail : Bool) : Except StartupErr Phase :=
  if env.token.isNone then .error (.systemExit 1)
  else (init_db_run env connectFail).map (fun _ => Phase.serving)

/-- Modelled from the spec: conversation.json is not among the source files,
so this concrete menu follows the spec (sections 3 and 6): a root node with
category options, a description node per category, the two free-text
collection nodes, a summary node whose template references the collected
fields, a confirmation node and a listing node. -/
def specCONVO : Convo :=
  [ ("start",
      { message := [.lit "Welcome! Choose an option:"],
        options := ["Web Design", "My Requests"],
        next := [("Web Design", "web_design"), ("My Requests", "my_requests")] }),
    ("web_design",
      { description := some "Web Design: we build websites." }),
    ("request_details",
      { message := [.lit "Please describe your project."] }),
    ("request_username",
      { message := [.lit "Please send your username."] }),
    ("request_summary",
      { message := [.lit "Summary: ", .field "project_type", .lit " | ",
                    .field "project_details", .lit " | @", .field "username"],
        options := ["Confirm Transaction", "Cancel Request"] }),
    ("request_confirmation",
      { message := [.lit "Your request has been submitted!"] }),
    ("my_requests",
      { message := [.lit "Your requests:"] }) ]

/-- The completed conversation of the spec's functional test: /start, pick
the Web Design category, request the service, send the details and the
username, then confirm. -/
def c4_final : CbResult :=
  let s0 := start_cmd specCONVO [] false 42
  let c1 := handle_callback specCONVO [] false s0.1 42 "Web Design"
  let c2 := handle_callback specCONVO c1.db false c1.ud 42 "Request Service"
  let t1 := handle_text specCONVO c2.db false c2.ud 42 "Need a 5-page site"
  let t2 := handle_text specCONVO c2.db false t1.1 42 "@alice"
  handle_callback specCONVO c2.db false t2.1 42 "Confirm Transaction"

/-- A two-row store for the same user, row id 1 older than row id 2. -/
def exDb : List Row :=
  [⟨1, 7, "ann", "Logo", "d1", "Pending"⟩, ⟨2, 7, "bob", "Site", "d2", "Pending"⟩]

/-- Number of occurrences of a name in a list of names. -/
def countOcc (name : String) : List String → Nat
  | [] => 0
  | x :: rest => (if x = name then 1 else 0) + countOcc name rest

lemma alookup_isSome_iff {α : Type} (n : String) (l : List (String × α)) :
    (∃ v, alookup n l = some v) ↔ n ∈ keys l := by
  induction l with
  | nil => simp [alookup, keys]
  | cons p rest ih =>
    obtain ⟨k, v⟩ := p
    by_cases h : n = k
    · subst h
      simp [alookup, keys]
    · simp [alookup, keys, h, ih]

lemma alookup_mem {α : Type} {n : String} {l : List (String × α)} (h : n ∈ keys l) :
    ∃ v, alookup n l = some v :=
  (alookup_isSome_iff n l).mpr h

lemma mem_of_alookup {α : Type} {n : String} {l : List (String × α)} {v : α}
    (h : alookup n l = some v) : n ∈ keys l :=
  (alookup_isSome_iff n l).mp ⟨v, h⟩

lemma summaryEnv_isSome (ud : UserData) (f : String) (h : allowedField f = true) :
    ∃ v, summaryEnv ud f = some v := by
  unfold allowedField at h
  simp only [Bool.or_eq_true, decide_eq_true_eq] at h
  rcases h with (h | h) | h <;> subst h
  · exact ⟨ud.project_type.getD "Unknown", rfl⟩
  · exact ⟨ud.project_details.getD "", rfl⟩
  · exact ⟨ud.username.getD "", rfl⟩

lemma renderTemplate_ok (parts : List TmplPart) (ud : UserData)
    (h : (tmplFields parts).all allowedField = true) :
    ∃ s, renderTemplate parts (summaryEnv ud) = .ok s := by
  induction parts with
  | nil => exact ⟨"", rfl⟩
  | cons p rest ih =>
    cases p with
    | lit s =>
      have h2 : (tmplFields rest).all allowedField = true := by
        simpa [tmplFields] using h
      obtain ⟨t, ht⟩ := ih h2
      exact ⟨s ++ t, by simp [renderTemplate, ht, Except.map]⟩
    | field f =>
      simp only [tmplFields, List.all_cons, Bool.and_eq_true] at h
      obtain ⟨v, hv⟩ := summaryEnv_isSome ud f h.1
      obtain ⟨t, ht⟩ := ih h.2
      exact ⟨v ++ t, by simp [renderTemplate, hv, ht, Except.map]⟩

lemma renderOut_eq_ok {db : List Row} {fail : Bool} {ud : UserData} {uid : Nat}
    {warned : List Reply} {sn : String} {st : Node} {text : String}
    (hok : (if sn = "request_summary" then renderTemplate st.message (summaryEnv ud)
            else .ok (rawTemplate st.message)) = .ok text) :
    renderOut db fail ud uid warned sn st =
      (match st.description with
       | some d => .ok (warned ++ [⟨d, ["Request Service", "Back"]⟩], sn)
       | none =>
         let text2 :=
           if sn = "my_requests" then
             let reqs := get_user_requests db fail uid
             if reqs.isEmpty then text ++ "\n\n(No requests yet.)"
             else text ++ "\n\n" ++ String.intercalate "\n"
               (reqs.map (fun r => "#" ++ toString r.1 ++ " | " ++ r.2.1 ++ " | " ++ r.2.2))
           else text
         .ok (warned ++ [⟨text2, st.options⟩], sn)) := by
  unfold renderOut
  rw [hok]

lemma renderOut_ok_exists (db : List Row) (fail : Bool) (ud : UserData) (uid : Nat)
    (warned : List Reply) (sn : String) (st : Node)
    (h : sn = "request_summary" → (tmplFields st.message).all allowedField = true) :
    ∃ reply, renderOut db fail ud uid warned sn st = .ok (warned ++ [reply], sn) := by
  have hok : ∃ text, (if sn = "request_summary" then renderTemplate st.message (summaryEnv ud)
      else .ok (rawTemplate st.message)) = .ok text := by
    by_cases hs : sn = "request_summary"
    · obtain ⟨t, ht⟩ := renderTemplate_ok st.message ud (h hs)
      exact ⟨t, by rw [if_pos hs, ht]⟩
    · exact ⟨rawTemplate st.message, by rw [if_neg hs]⟩
  obtain ⟨text, htext⟩ := hok
  rw [renderOut_eq_ok htext]
  cases hd : st.description with
  | some d =>
    exact ⟨⟨d, ["Request Service", "Back"]⟩, rfl⟩
  | none =>
    exact ⟨⟨if sn = "my_requests" then
        (if (get_user_requests db fail uid).isEmpty then text ++ "\n\n(No requests yet.)"
         else text ++ "\n\n" ++ String.intercalate "\n"
           ((get_user_requests db fail uid).map
             (fun r => "#" ++ toString r.1 ++ " | " ++ r.2.1 ++ " | " ++ r.2.2)))
      else text, st.options⟩, rfl⟩

lemma goto_state_eq_of_alookup (convo : Convo) (db : List Row) (fail : Bool)
    (ud : UserData) (uid : Nat) (n : String) (st : Node)
    (h : alookup n convo = some st) :
    goto_state convo db fail ud uid n =
      ({ ud with state_name := some n },
       renderOut db fail { ud with state_name := some n } uid [] n st) := by
  unfold goto_state
  rw [h]
  rfl

lemma goto_state_eq_of_fallback (convo : Convo) (db : List Row) (fail : Bool)
    (ud : UserData) (uid : Nat) (n : String) (st : Node)
    (h1 : alookup n convo = none) (h2 : alookup "start" convo = some st) :
    goto_state convo db fail ud uid n =
      ({ ud with state_name := some "start" },
       renderOut db fail { ud with state_name := some "start" } uid [warnReply] "start" st) := by
  unfold goto_state
  rw [h1, h2]
  rfl

lemma createdDescSorted_insertDesc (r : ReqView) (l : List ReqView)
    (h : createdDescSorted l = true) : createdDescSorted (insertDesc r l) = true := by
  induction l with
  | nil => rfl
  | cons x xs ih =>
    by_cases hxr : x.created_at ≤ r.created_at
    · simp only [insertDesc, if_pos hxr]
      simp [createdDescSorted, hxr, h]
    · simp only [insertDesc, if_neg hxr]
      have hrx : r.created_at ≤ x.created_at := le_of_not_le hxr
      cases xs with
      | nil =>
        simp [insertDesc, createdDescSorted, hrx]
      | cons y ys =>
        have hyx : y.created_at ≤ x.created_at ∧ createdDescSorted (y :: ys) = true := by
          simpa [createdDescSorted, Bool.and_eq_true] using h
        by_cases hyr : y.created_at ≤ r.created_at
        · simp only [insertDesc, if_pos hyr]
          simp [createdDescSorted, hrx, hyr, hyx.2]
        · simp only [insertDesc, if_neg hyr]
          have hs2 : createdDescSorted (y :: insertDesc r ys) = true := by
            have hins := ih hyx.2
            rwa [insertDesc, if_neg hyr] at hins
          simp [createdDescSorted, hyx.1, hs2]

lemma createdDescSorted_orderBy (l : List ReqView) :
    createdDescSorted (orderByCreatedDesc l) = true := by
  induction l with
  | nil => rfl
  | cons r rest ih => exact createdDescSorted_insertDesc r (orderByCreatedDesc rest) ih

lemma countOcc_append_one (n m : String) (l : List String) :
    countOcc n (l ++ [m]) = countOcc n l + (if m = n then 1 else 0) := by
  induction l with
  | nil => simp [countOcc]
  | cons x rest ih => simp [countOcc, ih]; omega

lemma countOcc_pos_of_mem {n : String} {l : List String} (h : n ∈ l) :
    1 ≤ countOcc n l := by
  induction l with
  | nil => cases h
  | cons x rest ih =>
    rcases List.mem_cons.mp h with h | h
    · subst h; simp [countOcc]
    · have := ih h; simp [countOcc]; omega

lemma countOcc_eq_zero_of_not_mem {n : String} {l : List String} (h : n ∉ l) :
    countOcc n l = 0 := by
  induction l with
  | nil => rfl
  | cons x rest ih =>
    have hx : x ≠ n := fun he => h (he ▸ List.mem_cons_self x rest)
    have hr : n ∉ rest := fun hm => h (List.mem_cons_of_mem x hm)
    simp [countOcc, hx, ih hr]

lemma tables_createDatabase (s : SchemaState) (n : String) :
    (createDatabaseIfNotExists s n).tables = s.tables := by
  unfold createDatabaseIfNotExists
  split <;> rfl

lemma databases_createTable (s : SchemaState) (n : String) :
    (createTableIfNotExists s n).databases = s.databases := by
  unfold createTableIfNotExists
  split <;> rfl

lemma mem_databases_createDatabase (s : SchemaState) (n : String) :
    n ∈ (createDatabaseIfNotExists s n).databases := by
  unfold createDatabaseIfNotExists
  by_cases h : n ∈ s.databases
  · rw [if_pos h]; exact h
  · rw [if_neg h]; simp

lemma mem_tables_createTable_self (s : SchemaState) (n : String) :
    n ∈ (createTableIfNotExists s n).tables := by
  unfold createTableIfNotExists
  by_cases h : n ∈ s.tables
  · rw [if_pos h]; exact h
  · rw [if_neg h]; simp

lemma mem_tables_createTable_of_mem (s : SchemaState) (n m : String) (h : n ∈ s.tables) :
    n ∈ (createTableIfNotExists s m).tables := by
  unfold createTableIfNotExists
  by_cases hm : m ∈ s.tables
  · rw [if_pos hm]; exact h
  · rw [if_neg hm]; simp [h]

lemma createDatabase_of_mem (s : SchemaState) (n : String) (h : n ∈ s.databases) :
    createDatabaseIfNotExists s n = s := by
  unfold createDatabaseIfNotExists
  rw [if_pos h]

lemma createTable_of_mem (s : SchemaState) (n : String) (h : n ∈ s.tables) :
    createTableIfNotExists s n = s := by
  unfold createTableIfNotExists
  rw [if_pos h]

lemma countOcc_tables_createTable (s : SchemaState) (n : String) :
    countOcc n (createTableIfNotExists s n).tables = max (countOcc n s.tables) 1 := by
  unfold createTableIfNotExists
  by_cases h : n ∈ s.tables
  · rw [if_pos h]
    have := countOcc_pos_of_mem h
    omega
  · rw [if_neg h]
    have h0 := countOcc_eq_zero_of_not_mem h
    simp [countOcc_append_one, h0]

lemma countOcc_tables_createTable_other (s : SchemaState) (n m : String) (h : m ≠ n) :
    countOcc n (createTableIfNotExists s m).tables = countOcc n s.tables := by
  unfold createTableIfNotExists
  by_cases hm : m ∈ s.tables
  · rw [if_pos hm]
  · rw [if_neg hm]
    simp [countOcc_append_one, h]

lemma handle_callback_unknown (convo : Convo) (db : List Row) (fail : Bool)
    (ud : UserData) (uid : Nat) (choice : String) (st : Node)
    (h1 : choice ≠ "Confirm Transaction") (h2 : choice ≠ "Cancel Request")
    (h3 : choice ≠ "Request Service") (h4 : choice ≠ "Back")
    (h5 : alookup (ud.state_name.getD "start") convo = some st)
    (h6 : alookup choice st.next = none) :
    handle_callback convo db fail ud uid choice =
      ⟨{ ud with last_choice := some choice,
                 state_name := some (ud.state_name.getD "start") },
        db,
        renderOut db fail
          { ud with last_choice := some choice,
                    state_name := some (ud.state_name.getD "start") } uid []
          (ud.state_name.getD "start") st⟩ := by
  unfold handle_callback
  simp only [if_neg h1, if_neg h2, if_neg h3, if_neg h4, h5, Option.getD_some, h6]
  rw [goto_state_eq_of_alookup convo db fail { ud with last_choice := some choice }
    uid (ud.state_name.getD "start") st h5]

/-- C1: if the target node name is not a key of CONVO, goto_state warns the
user and falls back to the root node start, storing it as the session node;
and after every goto_state step the stored node name is a key of CONVO
(provided CONVO contains the root key start). -/
theorem C1_node_name_invariant (convo : Convo) (db : List Row) (fail : Bool)
    (ud : UserData) (uid : Nat) (target : String)
    (hstart : "start" ∈ keys convo) :
    (target ∉ keys convo →
      (goto_state convo db fail ud uid target).1.state_name = some "start" ∧
      ∃ rest, (goto_state convo db fail ud uid target).2 =
        .ok (warnReply :: rest, "start")) ∧
    ∃ m, (goto_state convo db fail ud uid target).1.state_name = some m ∧
      m ∈ keys convo := by
  cases hl : alookup target convo with
  | some st =>
    have hmem := mem_of_alookup hl
    rw [goto_state_eq_of_alookup convo db fail ud uid target st hl]
    exact ⟨fun hno => absurd hmem hno, ⟨target, rfl, hmem⟩⟩
  | none =>
    have hno : target ∉ keys convo := by
      intro hmem
      obtain ⟨v, hv⟩ := alookup_mem hmem
      rw [hl] at hv
      cases hv
    obtain ⟨st0, h0⟩ := alookup_mem hstart
    rw [goto_state_eq_of_fallback convo db fail ud uid target st0 hl h0]
    constructor
    · intro _
      refine ⟨rfl, ?_⟩
      obtain ⟨reply, hr⟩ := renderOut_ok_exists db fail
        { ud with state_name := some "start" } uid [warnReply] "start" st0
        (fun hs => absurd hs (by decide))
      exact ⟨[reply], by simpa using hr⟩
    · exact ⟨"start", rfl, hstart⟩

/-- Witness for C1 at the concrete spec-modelled menu and an unknown
target node name. -/
theorem C1_node_name_invariant_witness :
    (("nonexistent" ∉ keys specCONVO →
      (goto_state specCONVO [] false UserData.empty 0 "nonexistent").1.state_name =
        some "start" ∧
      ∃ rest, (goto_state specCONVO [] false UserData.empty 0 "nonexistent").2 =
        .ok (warnReply :: rest, "start")) ∧
    ∃ m, (goto_state specCONVO [] false UserData.empty 0 "nonexistent").1.state_name =
      some m ∧ m ∈ keys specCONVO) :=
  C1_node_name_invariant specCONVO [] false UserData.empty 0 "nonexistent" (by decide)

/-- Counterexample to C2 as stated: the payload Request Service is not a key
of the start node's next-mapping, yet the handler does not re-render the
start node; it transitions the session to request_details (the hardcoded
payloads are handled before the next-mapping is consulted). -/
theorem C2_counterexample :
    alookup "Request Service" (((alookup "start" specCONVO).getD default).next) = none ∧
    (handle_callback specCONVO [] false { state_name := some "start" } 7
      "Request Service").ud.state_name = some "request_details" ∧
    ("request_details" : String) ≠ "start" := by
  refine ⟨rfl, rfl, by decide⟩

/-- C2 (amended): for every button payload that is not one of the four
hardcoded commands (Confirm Transaction, Cancel Request, Request Service,
Back) and has no entry in the current node's next-mapping, the handler
re-renders the current node: the session keeps the same node name and all
accumulated field values (only the last_choice bookkeeping entry is
updated), the store is unchanged, and no exception is raised (provided the
current node is a key of CONVO and the summary template is well-formed). -/
theorem C2_unknown_payload_rerenders (convo : Convo) (db : List Row) (fail : Bool)
    (ud : UserData) (uid : Nat) (choice : String) (st : Node)
    (h1 : choice ≠ "Confirm Transaction") (h2 : choice ≠ "Cancel Request")
    (h3 : choice ≠ "Request Service") (h4 : choice ≠ "Back")
    (h5 : alookup (ud.state_name.getD "start") convo = some st)
    (h6 : alookup choice st.next = none)
    (h7 : summaryTemplateOK convo = true) :
    (handle_callback convo db fail ud uid choice).ud =
      { ud with last_choice := some choice,
                state_name := some (ud.state_name.getD "start") } ∧
    (handle_callback convo db fail ud uid choice).db = db ∧
    ∃ reply, (handle_callback convo db fail ud uid choice).out =
      .ok ([reply], ud.state_name.getD "start") := by
  rw [handle_callback_unknown convo db fail ud uid choice st h1 h2 h3 h4 h5 h6]
  refine ⟨rfl, rfl, ?_⟩
  have hfields : ud.state_name.getD "start" = "request_summary" →
      (tmplFields st.message).all allowedField = true := by
    intro hs
    unfold summaryTemplateOK at h7
    rw [hs] at h5
    rw [h5] at h7
    exact h7
  obtain ⟨reply, hr⟩ := renderOut_ok_exists db fail
    { ud with last_choice := some choice,
              state_name := some (ud.state_name.getD "start") } uid []
    (ud.state_name.getD "start") st hfields
  exact ⟨reply, by simpa using hr⟩

/-- Witness for C2 (amended) at the concrete spec-modelled menu: an unknown
payload on the request_confirmation node re-renders that node. -/
theorem C2_unknown_payload_rerenders_witness :
    (handle_callback specCONVO [] false { state_name := some "request_confirmation" } 3
      "zzz").ud =
      { state_name := some "request_confirmation", last_choice := some "zzz" } ∧
    (handle_callback specCONVO [] false { state_name := some "request_confirmation" } 3
      "zzz").db = [] ∧
    ∃ reply, (handle_callback specCONVO [] false
      { state_name := some "request_confirmation" } 3 "zzz").out =
      .ok ([reply], "request_confirmation") := by
  have h := C2_unknown_payload_rerenders specCONVO [] false
    { state_name := some "request_confirmation" } 3 "zzz"
    { message := [.lit "Your request has been submitted!"] }
    (by decide) (by decide) (by decide) (by decide) (by decide) rfl (by decide)
  simpa using h

/-- Counterexample to C3 as stated: rendering request_summary with an empty
session substitutes Unknown (not the empty string) for the missing
project_type field, so the rendered text differs from the text that an
all-empty substitution would produce. -/
theorem C3_counterexample :
    (goto_state specCONVO [] false UserData.empty 0 "request_summary").2 =
      .ok ([⟨"Summary: Unknown |  | @", ["Confirm Transaction", "Cancel Request"]⟩],
        "request_summary") ∧
    renderTemplate (((alookup "request_summary" specCONVO).getD default).message)
      (fun _ => some "") = .ok "Summary:  |  | @" ∧
    ("Summary: Unknown |  | @" : String) ≠ "Summary:  |  | @" := by
  refine ⟨rfl, rfl, by decide⟩

/-- C3 (amended): rendering any node that is a key of CONVO via goto_state
never raises, even for a session with no accumulated fields (provided the
summary template references only the three supplied field names); a missing
project_details or username is substituted with the empty string, while a
missing project_type is substituted with Unknown. -/
theorem C3_render_total (convo : Convo) (db : List Row) (fail : Bool) (uid : Nat)
    (name : String) (st : Node)
    (h1 : alookup name convo = some st) (h2 : summaryTemplateOK convo = true) :
    (∃ reply, (goto_state convo db fail UserData.empty uid name).2 =
      .ok ([reply], name)) ∧
    summaryEnv { UserData.empty with state_name := some name } "project_type" =
      some "Unknown" ∧
    summaryEnv { UserData.empty with state_name := some name } "project_details" =
      some "" ∧
    summaryEnv { UserData.empty with state_name := some name } "username" =
      some "" := by
  refine ⟨?_, rfl, rfl, rfl⟩
  rw [goto_state_eq_of_alookup convo db fail UserData.empty uid name st h1]
  have hfields : name = "request_summary" →
      (tmplFields st.message).all allowedField = true := by
    intro hs
    unfold summaryTemplateOK at h2
    rw [hs] at h1
    rw [h1] at h2
    exact h2
  obtain ⟨reply, hr⟩ := renderOut_ok_exists db fail
    { UserData.empty with state_name := some name } uid [] name st hfields
  exact ⟨reply, by simpa using hr⟩

/-- Witness for C3 (amended) at the concrete spec-modelled menu and the
request_summary node with an empty session. -/
theorem C3_render_total_witness :
    (∃ reply, (goto_state specCONVO [] false UserData.empty 0 "request_summary").2 =
      .ok ([reply], "request_summary")) ∧
    summaryEnv { UserData.empty with state_name := some "request_summary" }
      "project_type" = some "Unknown" ∧
    summaryEnv { UserData.empty with state_name := some "request_summary" }
      "project_details" = some "" ∧
    summaryEnv { UserData.empty with state_name := some "request_summary" }
      "username" = some "" :=
  C3_render_total specCONVO [] false 0 "request_summary"
    { message := [.lit "Summary: ", .field "project_type", .lit " | ",
                  .field "project_details", .lit " | @", .field "username"],
      options := ["Confirm Transaction", "Cancel Request"] } rfl (by decide)

/-- C4: starting from an empty store, the completed conversation collecting
category Web Design, details Need a 5-page site and username alice followed
by the confirm action persists exactly one record with those three field
values and the default pending status, and leaves the session on the
request_confirmation node. -/
theorem C4_completed_conversation :
    c4_final.db = [⟨1, 42, "alice", "Web Design", "Need a 5-page site", "Pending"⟩] ∧
    c4_final.db.length = 1 ∧
    c4_final.ud.state_name = some "request_confirmation" :=
  ⟨rfl, rfl, rfl⟩

/-- Counterexample to C5 as stated: database.py add_request does not swallow
a database error; its body is try/finally with no except clause, so the
error propagates to the caller instead of being logged and returned
normally. -/
theorem C5_counterexample :
    add_request [] true 1 "alice" "Web Design" "site" "details" 0 =
      .error .insertError :=
  rfl

/-- C5 (amended): bot.py save_request appends exactly one row on success and
on a database error logs, rolls back and returns normally with the store
unchanged; database.py add_request appends exactly one row on success but
propagates a database error to its caller (the store is unchanged, the
connection is closed by the finally block). -/
theorem C5_insert_error_behaviour (db : List Row) (db2 : List Row2) (uid : Nat)
    (un pt det cat srv : String) (now : Nat) :
    save_request db false uid un pt det = db ++ [mkRow db uid un pt det] ∧
    (save_request db false uid un pt det).length = db.length + 1 ∧
    save_request db true uid un pt det = db ∧
    add_request db2 false uid un cat srv det now =
      .ok (db2 ++ [⟨nextId2 db2, uid, un, cat, srv, det, "pending", now⟩]) ∧
    add_request db2 true uid un cat srv det now = .error .insertError := by
  refine ⟨rfl, ?_, rfl, rfl, rfl⟩
  simp [save_request, insert_exec]

/-- Counterexample to C6 as stated: bot.py get_user_requests has no ORDER BY
clause, so a user's rows come back in table order, oldest first, not
newest-first; and database.py get_requests_by_user propagates a database
error instead of returning an empty sequence. -/
theorem C6_counterexample :
    get_user_requests exDb false 7 = [(1, "Logo", "Pending"), (2, "Site", "Pending")] ∧
    idsNewestFirst (get_user_requests exDb false 7) = false ∧
    get_requests_by_user ([] : List Row2) true 7 = .error .fetchError :=
  ⟨rfl, rfl, rfl⟩

/-- C6 (amended): bot.py get_user_requests returns the matching rows in
table order (its query has no ORDER BY), returns the empty sequence for a
user with zero records, and returns the empty sequence on a database error;
database.py get_requests_by_user returns the matching rows ordered
newest-first by created_at and returns the empty sequence for a user with
zero records, but propagates a database error to its caller. -/
theorem C6_query_behaviour (db : List Row) (db2 : List Row2) (uid : Nat) :
    get_user_requests db true uid = [] ∧
    get_user_requests db false uid =
      (db.filter (fun r => r.user_id == uid)).map
        (fun r => (r.id, r.project_type, r.status)) ∧
    get_user_requests ([] : List Row) false uid = [] ∧
    get_requests_by_user db2 false uid =
      .ok (orderByCreatedDesc ((db2.filter (fun r => r.user_id == uid)).map toView)) ∧
    createdDescSorted
      (orderByCreatedDesc ((db2.filter (fun r => r.user_id == uid)).map toView)) =
      true ∧
    get_requests_by_user ([] : List Row2) false uid = .ok [] ∧
    get_requests_by_user db2 true uid = .error .fetchError :=
  ⟨rfl, rfl, rfl, rfl, createdDescSorted_orderBy _, rfl, rfl⟩

/-- C7: both init_db functions are idempotent at the schema level: running
them a second time returns the same schema state, and each created table
occurs exactly once afterwards (never duplicated), so calling them on every
process start is safe. -/
theorem C7_init_idempotent (s : SchemaState) (dbn : String) :
    bot_init_db (bot_init_db s false dbn) false dbn = bot_init_db s false dbn ∧
    db_init_db (db_init_db s) = db_init_db s ∧
    countOcc "requests" (bot_init_db s false dbn).tables =
      max (countOcc "requests" s.tables) 1 ∧
    countOcc "requests" (db_init_db s).tables =
      max (countOcc "requests" s.tables) 1 ∧
    countOcc "submissions" (db_init_db s).tables =
      max (countOcc "submissions" s.tables) 1 := by
  refine ⟨?_, ?_, ?_, ?_, ?_⟩
  · show bot_init_db (createTableIfNotExists (createDatabaseIfNotExists s dbn)
      "requests") false dbn = _
    unfold bot_init_db
    rw [if_neg (by decide), if_neg (by decide)]
    rw [createDatabase_of_mem _ _ (by
      rw [databases_createTable]
      exact mem_databases_createDatabase s dbn)]
    exact createTable_of_mem _ _ (mem_tables_createTable_self _ "requests")
  · unfold db_init_db
    rw [createTable_of_mem _ _ (mem_tables_createTable_of_mem _ _ _
      (mem_tables_createTable_self s "requests"))]
    exact createTable_of_mem _ _ (mem_tables_createTable_self _ "submissions")
  · unfold bot_init_db
    rw [if_neg (by decide)]
    rw [countOcc_tables_createTable, tables_createDatabase]
  · unfold db_init_db
    rw [countOcc_tables_createTable_other _ _ _ (by decide),
      countOcc_tables_createTable]
  · unfold db_init_db
    rw [countOcc_tables_createTable,
      countOcc_tables_createTable_other _ _ _ (by decide)]

/-- Counterexample to C8 as stated: with the bot token present but every
database connection field absent, startup is not fatal; init_db logs the
missing host and returns, and the process proceeds to serve chat events. -/
theorem C8_counterexample :
    ({ token := some "tok" } : EnvConfig).host = none ∧
    ({ token := some "tok" } : EnvConfig).user = none ∧
    ({ token := some "tok" } : EnvConfig).password = none ∧
    main_startup { token := some "tok" } false = .ok .serving :=
  ⟨rfl, rfl, rfl, rfl⟩

/-- C8 (amended): a missing bot token is fatal at startup (SystemExit 1
before serving).  A missing database configuration is not fatal in general:
with no host configured, and likewise when every connection attempt fails
and the retry loop exhausts, init_db logs and returns normally and the
process starts serving chat events without a working database.  The one
database misconfiguration that is fatal before serving is a reachable host
with a successful connection but a missing user or password, where
ensure_pool raises ValueError, which is not a mysql.connector.Error and so
escapes init_db's except clause and aborts main. -/
theorem C8_startup_behaviour (env : EnvConfig) (cf : Bool) :
    (env.token = none → main_startup env cf = .error (.systemExit 1)) ∧
    (env.token ≠ none → env.host = none → main_startup env cf = .ok .serving) ∧
    (env.token ≠ none → env.host ≠ none → cf = true →
      main_startup env cf = .ok .serving) ∧
    (env.token ≠ none → env.host ≠ none → cf = false →
      (env.user.isNone || env.password.isNone) = true →
      main_startup env cf = .error .valueError) := by
  refine ⟨?_, ?_, ?_, ?_⟩
  · intro h
    simp [main_startup, h]
  · intro h1 h2
    cases ht : env.token with
    | none => exact absurd ht h1
    | some t => simp [main_startup, init_db_run, ht, h2, Except.map]
  · intro h1 h2 h3
    cases ht : env.token with
    | none => exact absurd ht h1
    | some t =>
      cases hh : env.host with
      | none => exact absurd hh h2
      | some hst => simp [main_startup, init_db_run, ht, hh, h3, Except.map]
  · intro h1 h2 h3 h4
    cases ht : env.token with
    | none => exact absurd ht h1
    | some t =>
      cases hh : env.host with
      | none => exact absurd hh h2
      | some hst => simp [main_startup, init_db_run, ht, hh, h3, h4, Except.map]

/-- Witness for C8 (amended) at four concrete environments: no token; a
token with no database host; a token and host with all connection attempts
failing; and a token and reachable host with no user and no password. -/
theorem C8_startup_behaviour_witness :
    main_startup { token := none } false = .error (.systemExit 1) ∧
    main_startup { token := some "tok", host := none } false = .ok .serving ∧
    main_startup { token := some "tok", host := some "h" } true = .ok .serving ∧
    main_startup { token := some "tok", host := some "h" } false =
      .error .valueError :=
  ⟨(C8_startup_behaviour { token := none } false).1 rfl,
   (C8_startup_behaviour { token := some "tok", host := none } false).2.1
     (by decide) rfl,
   (C8_startup_behaviour { token := some "tok", host := some "h" } true).2.2.1
     (by decide) (by decide) rfl,
   (C8_startup_behaviour { token := some "tok", host := some "h" } false).2.2.2
     (by decide) (by decide) rfl (by decide)⟩

/-- C9: the four hardcoded button payloads are handled before the current
node's next-mapping is consulted, for every session state and every menu: a
Confirm Transaction payload always persists the accumulated username
(default empty), project type (default Unknown) and details (default empty)
and moves the session to request_confirmation; Cancel Request always clears
the session and moves to start; Request Service always moves to
request_details; Back always moves to the stored parent node (default
start). -/
theorem C9_hardcoded_payloads (convo : Convo) (db : List Row) (fail : Bool)
    (ud : UserData) (uid : Nat) (st1 st2 st3 st4 : Node)
    (h1 : alookup "request_confirmation" convo = some st1)
    (h2 : alookup "start" convo = some st2)
    (h3 : alookup "request_details" convo = some st3)
    (h4 : alookup (ud.parent_state.getD "start") convo = some st4) :
    (handle_callback convo db fail ud uid "Confirm Transaction").db =
      save_request db fail uid (ud.username.getD "") (ud.project_type.getD "Unknown")
        (ud.project_details.getD "") ∧
    (handle_callback convo db fail ud uid "Confirm Transaction").ud.state_name =
      some "request_confirmation" ∧
    (handle_callback convo db fail ud uid "Cancel Request").ud =
      { UserData.empty with state_name := some "start" } ∧
    (handle_callback convo db fail ud uid "Cancel Request").db = db ∧
    (handle_callback convo db fail ud uid "Request Service").ud.state_name =
      some "request_details" ∧
    (handle_callback convo db fail ud uid "Back").ud.state_name =
      some (ud.parent_state.getD "start") := by
  have hC : handle_callback convo db fail ud uid "Confirm Transaction" =
      ⟨(goto_state convo
          (save_request db fail uid (ud.username.getD "") (ud.project_type.getD "Unknown")
            (ud.project_details.getD ""))
          fail { ud with last_choice := some "Confirm Transaction" } uid
          "request_confirmation").1,
        save_request db fail uid (ud.username.getD "") (ud.project_type.getD "Unknown")
          (ud.project_details.getD ""),
        (goto_state convo
          (save_request db fail uid (ud.username.getD "") (ud.project_type.getD "Unknown")
            (ud.project_details.getD ""))
          fail { ud with last_choice := some "Confirm Transaction" } uid
          "request_confirmation").2⟩ := rfl
  have hX : handle_callback convo db fail ud uid "Cancel Request" =
      ⟨(goto_state convo db fail UserData.empty uid "start").1, db,
        (goto_state convo db fail UserData.empty uid "start").2⟩ := rfl
  have hR : handle_callback convo db fail ud uid "Request Service" =
      ⟨(goto_state convo db fail { ud with last_choice := some "Request Service" } uid
          "request_details").1, db,
        (goto_state convo db fail { ud with last_choice := some "Request Service" } uid
          "request_details").2⟩ := rfl
  have hB : handle_callback convo db fail ud uid "Back" =
      ⟨(goto_state convo db fail { ud with last_choice := some "Back" } uid
          (ud.parent_state.getD "start")).1, db,
        (goto_state convo db fail { ud with last_choice := some "Back" } uid
          (ud.parent_state.getD "start")).2⟩ := rfl
  refine ⟨?_, ?_, ?_, ?_, ?_, ?_⟩
  · rw [hC]
  · rw [hC, goto_state_eq_of_alookup _ _ _ _ _ _ _ h1]
  · rw [hX, goto_state_eq_of_alookup _ _ _ _ _ _ _ h2]
  · rw [hX]
  · rw [hR, goto_state_eq_of_alookup _ _ _ _ _ _ _ h3]
  · rw [hB, goto_state_eq_of_alookup _ _ _ _ _ _ _ h4]

/-- Witness for C9 at the concrete spec-modelled menu and a session whose
parent node is web_design. -/
theorem C9_hardcoded_payloads_witness :
    (handle_callback specCONVO [] false { parent_state := some "web_design" } 5
      "Confirm Transaction").db = save_request [] false 5 "" "Unknown" "" ∧
    (handle_callback specCONVO [] false { parent_state := some "web_design" } 5
      "Confirm Transaction").ud.state_name = some "request_confirmation" ∧
    (handle_callback specCONVO [] false { parent_state := some "web_design" } 5
      "Cancel Request").ud = { UserData.empty with state_name := some "start" } ∧
    (handle_callback specCONVO [] false { parent_state := some "web_design" } 5
      "Cancel Request").db = [] ∧
    (handle_callback specCONVO [] false { parent_state := some "web_design" } 5
      "Request Service").ud.state_name = some "request_details" ∧
    (handle_callback specCONVO [] false { parent_state := some "web_design" } 5
      "Back").ud.state_name = some "web_design" := by
  have h := C9_hardcoded_payloads specCONVO [] false
    { parent_state := some "web_design" } 5 _ _ _ _ rfl rfl rfl rfl
  simpa using h

/-- C10: a text message received on the request_username node stores the
message text stripped of surrounding whitespace and of every leading at-sign
as the username and moves the session to request_summary; a text message on
the request_details node stores the whitespace-stripped text as the project
details and moves the session to request_username. -/
theorem C10_text_handlers (convo : Convo) (db : List Row) (fail : Bool)
    (ud : UserData) (uid : Nat) (msg : String) (stS stU : Node)
    (hS : alookup "request_summary" convo = some stS)
    (hU : alookup "request_username" convo = some stU) :
    (handle_text convo db fail { ud with state_name := some "request_username" }
      uid msg).1.username = some (pyLstripAts (pyStrip msg)) ∧
    (handle_text convo db fail { ud with state_name := some "request_username" }
      uid msg).1.state_name = some "request_summary" ∧
    (handle_text convo db fail { ud with state_name := some "request_details" }
      uid msg).1.project_details = some (pyStrip msg) ∧
    (handle_text convo db fail { ud with state_name := some "request_details" }
      uid msg).1.state_name = some "request_username" := by
  have hTu : handle_text convo db fail { ud with state_name := some "request_username" }
      uid msg =
      ((goto_state convo db fail
          { ud with state_name := some "request_username",
                    username := some (pyLstripAts (pyStrip msg)) } uid
          "request_summary").1,
        (goto_state convo db fail
          { ud with state_name := some "request_username",
                    username := some (pyLstripAts (pyStrip msg)) } uid
          "request_summary").2.map (fun p => (p.1, some p.2))) := rfl
  have hTd : handle_text convo db fail { ud with state_name := some "request_details" }
      uid msg =
      ((goto_state convo db fail
          { ud with state_name := some "request_details",
                    project_details := some (pyStrip msg) } uid
          "request_username").1,
        (goto_state convo db fail
          { ud with state_name := some "request_details",
                    project_details := some (pyStrip msg) } uid
          "request_username").2.map (fun p => (p.1, some p.2))) := rfl
  refine ⟨?_, ?_, ?_, ?_⟩
  · rw [hTu, goto_state_eq_of_alookup _ _ _ _ _ _ _ hS]
  · rw [hTu, goto_state_eq_of_alookup _ _ _ _ _ _ _ hS]
  · rw [hTd, goto_state_eq_of_alookup _ _ _ _ _ _ _ hU]
  · rw [hTd, goto_state_eq_of_alookup _ _ _ _ _ _ _ hU]

/-- Witness for C10 at the concrete spec-modelled menu and the message
text with surrounding whitespace and two leading at-signs. -/
theorem C10_text_handlers_witness :
    pyLstripAts (pyStrip "  @@alice  ") = "alice" ∧
    ((handle_text specCONVO [] false
      { UserData.empty with state_name := some "request_username" } 9
      "  @@alice  ").1.username = some (pyLstripAts (pyStrip "  @@alice  ")) ∧
    (handle_text specCONVO [] false
      { UserData.empty with state_name := some "request_username" } 9
      "  @@alice  ").1.state_name = some "request_summary" ∧
    (handle_text specCONVO [] false
      { UserData.empty with state_name := some "request_details" } 9
      "  @@alice  ").1.project_details = some (pyStrip "  @@alice  ") ∧
    (handle_text specCONVO [] false
      { UserData.empty with state_name := some "request_details" } 9
      "  @@alice  ").1.state_name = some "request_username") :=
  ⟨rfl, C10_text_handlers specCONVO [] false UserData.empty 9 "  @@alice  " _ _ rfl rfl⟩

end FirmCrypto
